import Mathlib

/-!
Verification of the MusicCaps clip downloader notebook.

The notebook's reproducible logic is the function `download_clip`
(window adjustment, shell command construction, bounded retry loop,
file-exists post-condition) and the per-row driver `process`.  We embed
each piece as a Lean definition and prove the spec's testable
properties about them.
-/

namespace MusicCaps

/-- Window adjustment performed at the top of `download_clip`:
if `int(start_time) > 15` then `start_time - 15` and `end_time + 15`,
otherwise `start_time` unchanged and `end_time + 30`.  Times are Python
ints, modelled as `Int`. -/
def adjustWindow (start_time end_time : Int) : Int × Int :=
  if start_time > 15 then (start_time - 15, end_time + 15)
  else (start_time, end_time + 30)

/-- Outcome of one invocation of the external tool
(`subprocess.check_output`): either it returns normally, or it raises
`CalledProcessError` carrying the captured output `err.output`. -/
inductive Outcome where
  | ok
  | fail (output : List Char)
deriving DecidableEq

/-- How the `while True` loop of `download_clip` exits: either the
attempt counter reached `num_attempts` (returning the captured output
of the last failed attempt), or an invocation succeeded and the loop
`break`s. -/
inductive LoopExit where
  | exhausted (output : List Char)
  | broke
deriving DecidableEq

/-- The `while True` retry loop of `download_clip`.  `oracle i` is the
outcome of the `i`-th invocation of the external tool (0-indexed);
`numAttempts` is `num_attempts`; `i` is the invocation index
(instrumentation, counting invocations made so far); `attempts` is the
code's `attempts` counter (incremented on each failure, compared with
`num_attempts` by `==` after the increment).  `fuel` bounds how many
loop iterations we unfold: `none` means the loop is still running after
`fuel` iterations.  On exit it returns the exit kind together with the
total number of invocations made. -/
def loopRun (oracle : Nat → Outcome) (numAttempts : Nat) :
    Nat → Nat → Nat → Option (LoopExit × Nat)
  | _, _, 0 => none
  | i, attempts, fuel + 1 =>
    match oracle i with
    | Outcome.ok => some (LoopExit.broke, i + 1)
    | Outcome.fail out =>
      if attempts + 1 = numAttempts then some (LoopExit.exhausted out, i + 1)
      else loopRun oracle numAttempts (i + 1) (attempts + 1) fuel

/-- The literal message returned by `download_clip` after the loop
breaks: `'Downloaded'`. -/
def downloadedMsg : List Char := "Downloaded".data

/-- The result-relevant part of `download_clip`: runs the retry loop
from `i = 0`, `attempts = 0`; if the attempt budget is exhausted it
returns `(status, err.output)` with `status` still `False`; if the loop
broke it sets `status = os.path.exists(output_filename)` (abstracted as
the parameter `fileExists`, the filesystem being external) and returns
`(status, 'Downloaded')`.  The second component counts the invocations
made; `none` means the loop had not returned within `fuel` iterations.
The window adjustment and the command string are modelled separately
(`adjustWindow`, `buildCommand`) since the external invocation is
abstracted by `oracle`. -/
def download_clip (oracle : Nat → Outcome) (fileExists : Bool)
    (numAttempts fuel : Nat) : Option ((Bool × List Char) × Nat) :=
  match loopRun oracle numAttempts 0 0 fuel with
  | none => none
  | some (LoopExit.exhausted out, k) => some ((false, out), k)
  | some (LoopExit.broke, k) => some ((fileExists, downloadedMsg), k)

/-- Python whitespace predicate: the characters removed by
`str.strip()` with no argument (Unicode whitespace per
`Py_UNICODE_ISSPACE`). -/
def isPyWhitespace (c : Char) : Bool :=
  (0x09 ≤ c.val && c.val ≤ 0x0d) || c.val = 0x20 ||
  (0x1c ≤ c.val && c.val ≤ 0x1f) || c.val = 0x85 || c.val = 0xa0 ||
  c.val = 0x1680 || (0x2000 ≤ c.val && c.val ≤ 0x200a) ||
  c.val = 0x2028 || c.val = 0x2029 || c.val = 0x202f ||
  c.val = 0x205f || c.val = 0x3000

/-- Python `str.strip()`: remove leading and trailing whitespace. -/
def pyStrip (l : List Char) : List Char :=
  ((l.dropWhile isPyWhitespace).reverse.dropWhile isPyWhitespace).reverse

/-- The `url_base` default argument of `download_clip`. -/
def urlBase : List Char := "https://www.youtube.com/watch?v=".data

/-- The interpolated body of the f-string in `download_clip`, without
the surrounding template whitespace: `yt-dlp --quiet --no-warnings -x
--audio-format wav -f bestaudio -o "{output_filename}"
--download-sections "*{start_time}-{end_time}" {url_base}{video_identifier}`.
`start_time` and `end_time` here are the already-adjusted,
already-stringified times. -/
def commandCore (output_filename start_time end_time video_identifier : List Char) :
    List Char :=
  "yt-dlp --quiet --no-warnings -x --audio-format wav -f bestaudio -o \"".data ++
  output_filename ++
  "\" --download-sections \"*".data ++ start_time ++ "-".data ++ end_time ++
  "\" ".data ++ urlBase ++ video_identifier

/-- The raw f-string of `download_clip` before `.strip()`: the template
opens with a newline and eight spaces of indentation and closes with a
newline and four spaces. -/
def rawCommand (output_filename start_time end_time video_identifier : List Char) :
    List Char :=
  "\n        ".data ++
  commandCore output_filename start_time end_time video_identifier ++
  "\n    ".data

/-- The `command` string handed to the shell: the raw f-string after
`.strip()`. -/
def buildCommand (output_filename start_time end_time video_identifier : List Char) :
    List Char :=
  pyStrip (rawCommand output_filename start_time end_time video_identifier)

/-- Output fields the driver records on each row: `example['audio']`
and `example['download_status']`. -/
structure RowOut where
  audio : List Char
  download_status : Bool
deriving DecidableEq

/-- The per-row driver `process` inside `main`: `status = True`; if the
destination file does not already exist, `status` is set to `False` and
then to the first component of `download_clip`'s result; finally
`example['audio']` and `example['download_status']` are recorded.  The
pre-existence check `os.path.exists(outfile_path)` is abstracted as
`existsBefore`, and the value `download_clip` would return as
`fetchResult`.  The second component of the result is instrumentation
recording whether `download_clip` was invoked. -/
def process (outfile_path : List Char) (existsBefore : Bool)
    (fetchResult : Bool × List Char) : RowOut × Bool :=
  if existsBefore then
    ({ audio := outfile_path, download_status := true }, false)
  else
    ({ audio := outfile_path, download_status := fetchResult.1 }, true)

/-- Unfolding one iteration of the retry loop. -/
lemma loopRun_succ (oracle : Nat → Outcome) (n i a fuel : Nat) :
    loopRun oracle n i a (fuel + 1) =
      match oracle i with
      | Outcome.ok => some (LoopExit.broke, i + 1)
      | Outcome.fail out =>
        if a + 1 = n then some (LoopExit.exhausted out, i + 1)
        else loopRun oracle n (i + 1) (a + 1) fuel := rfl

/-- Running the loop past `d` failing, non-exhausting invocations. -/
lemma loopRun_skip (oracle : Nat → Outcome) (n : Nat) :
    ∀ (d i a fuel : Nat),
      (∀ m, m < d → oracle (i + m) ≠ Outcome.ok) →
      (∀ m, m < d → a + m + 1 ≠ n) →
      loopRun oracle n i a (d + fuel) = loopRun oracle n (i + d) (a + d) fuel := by
  intro d
  induction d with
  | zero => intro i a fuel _ _; simp
  | succ s ih =>
    intro i a fuel hok hne
    have hstep : s + 1 + fuel = (s + fuel) + 1 := by omega
    rw [hstep, loopRun_succ]
    cases hoc : oracle i with
    | ok =>
      exact absurd hoc (by simpa using hok 0 (Nat.succ_pos s))
    | fail out =>
      have hne0 : ¬ a + 1 = n := by simpa using hne 0 (Nat.succ_pos s)
      show (if a + 1 = n then some (LoopExit.exhausted out, i + 1)
            else loopRun oracle n (i + 1) (a + 1) (s + fuel)) =
          loopRun oracle n (i + (s + 1)) (a + (s + 1)) fuel
      rw [if_neg hne0]
      have hrec := ih (i + 1) (a + 1) fuel
        (fun m hm => by
          have := hok (m + 1) (by omega)
          simpa [Nat.add_assoc, Nat.add_comm 1 m] using this)
        (fun m hm => by
          have := hne (m + 1) (by omega)
          omega)
      rw [hrec]
      have h1 : i + 1 + s = i + (s + 1) := by omega
      have h2 : a + 1 + s = a + (s + 1) := by omega
      rw [h1, h2]

/-- With a positive attempt budget the loop returns within
`numAttempts` invocations once the fuel covers the budget. -/
lemma loopRun_total (oracle : Nat → Outcome) (n : Nat) :
    ∀ (fuel i a : Nat), a + fuel = n → 1 ≤ fuel →
      ∃ r k, loopRun oracle n i a fuel = some (r, k) ∧ k ≤ i + fuel := by
  intro fuel
  induction fuel with
  | zero => intro i a _ hf; exact absurd hf (by omega)
  | succ f ih =>
    intro i a hsum _
    rw [loopRun_succ]
    cases hoc : oracle i with
    | ok => exact ⟨LoopExit.broke, i + 1, rfl, by omega⟩
    | fail out =>
      show ∃ r k, (if a + 1 = n then some (LoopExit.exhausted out, i + 1)
            else loopRun oracle n (i + 1) (a + 1) f) = some (r, k) ∧ k ≤ i + (f + 1)
      by_cases hif : a + 1 = n
      · rw [if_pos hif]
        exact ⟨LoopExit.exhausted out, i + 1, rfl, by omega⟩
      · rw [if_neg hif]
        have hf : 1 ≤ f := by omega
        obtain ⟨r, k, hr, hk⟩ := ih (i + 1) (a + 1) (by omega) hf
        exact ⟨r, k, hr, by omega⟩

/-- With `num_attempts = 0` and an always-failing tool, the attempt
counter (which only ever increases from 1) never equals the budget, so
the loop never returns, whatever iteration bound we allow it. -/
lemma loopRun_zero_budget (out : List Char) :
    ∀ (fuel i a : Nat),
      loopRun (fun _ => Outcome.fail out) 0 i a fuel = none := by
  intro fuel
  induction fuel with
  | zero => intro i a; rfl
  | succ f ih =>
    intro i a
    rw [loopRun_succ]
    show (if a + 1 = 0 then some (LoopExit.exhausted out, i + 1)
          else loopRun (fun _ => Outcome.fail out) 0 (i + 1) (a + 1) f) = none
    rw [if_neg (Nat.succ_ne_zero a)]
    exact ih (i + 1) (a + 1)

/-- Exhaustion behaviour of `download_clip`: when every invocation
fails, the loop returns `(False, err.output)` of the last attempt after
exactly `num_attempts` invocations. -/
lemma download_clip_exhaust (errs : Nat → List Char) (fe : Bool) (n fuel : Nat)
    (hn : 1 ≤ n) (hfuel : n ≤ fuel) :
    download_clip (fun i => Outcome.fail (errs i)) fe n fuel =
      some ((false, errs (n - 1)), n) := by
  have hd : fuel = (n - 1) + ((fuel - n) + 1) := by omega
  have hloop : loopRun (fun i => Outcome.fail (errs i)) n 0 0 fuel =
      some (LoopExit.exhausted (errs (n - 1)), n) := by
    rw [hd, loopRun_skip _ _ (n - 1) 0 0 _ (fun m _ => by simp)
      (fun m hm => by omega), loopRun_succ]
    show (if (0 + (n - 1)) + 1 = n then
          some (LoopExit.exhausted (errs (0 + (n - 1))), (0 + (n - 1)) + 1)
        else loopRun (fun i => Outcome.fail (errs i)) n ((0 + (n - 1)) + 1)
          ((0 + (n - 1)) + 1) (fuel - n)) =
        some (LoopExit.exhausted (errs (n - 1)), n)
    rw [if_pos (by omega)]
    have h1 : 0 + (n - 1) = n - 1 := by omega
    rw [h1]
    have h2 : (n - 1) + 1 = n := by omega
    rw [h2]
  unfold download_clip
  rw [hloop]

/-- Break behaviour of `download_clip`: when invocation `k` (1-indexed)
succeeds after `k - 1` failures within the budget, the loop breaks
after exactly `k` invocations and the result is
`(fileExists, 'Downloaded')`. -/
lemma download_clip_break (oracle : Nat → Outcome) (fe : Bool) (k n fuel : Nat)
    (hk : 1 ≤ k) (hkn : k ≤ n) (hfuel : k ≤ fuel)
    (hfail : ∀ i, i < k - 1 → oracle i ≠ Outcome.ok)
    (hok : oracle (k - 1) = Outcome.ok) :
    download_clip oracle fe n fuel = some ((fe, downloadedMsg), k) := by
  have hd : fuel = (k - 1) + ((fuel - k) + 1) := by omega
  have hloop : loopRun oracle n 0 0 fuel = some (LoopExit.broke, k) := by
    rw [hd, loopRun_skip _ _ (k - 1) 0 0 _
      (fun m hm => by simpa using hfail m hm)
      (fun m hm => by omega), loopRun_succ]
    have h1 : 0 + (k - 1) = k - 1 := by omega
    rw [h1, hok]
    show some (LoopExit.broke, (k - 1) + 1) = some (LoopExit.broke, k)
    have h2 : (k - 1) + 1 = k := by omega
    rw [h2]
  unfold download_clip
  rw [hloop]

/-- dropWhile skips a leading block on which the predicate holds
everywhere. -/
lemma dropWhile_append_all (p : Char → Bool) :
    ∀ (l₁ l₂ : List Char), (∀ c ∈ l₁, p c = true) →
      List.dropWhile p (l₁ ++ l₂) = List.dropWhile p l₂ := by
  intro l₁
  induction l₁ with
  | nil => intro l₂ _; rfl
  | cons c l ih =>
    intro l₂ h
    rw [List.cons_append, List.dropWhile_cons_of_pos (h c (List.mem_cons_self c l))]
    exact ih l₂ (fun x hx => h x (List.mem_cons_of_mem c hx))

/-- dropWhile does nothing on the reversal of a list whose last element
falsifies the predicate. -/
lemma dropWhile_reverse_eq_self (p : Char → Bool) (l : List Char)
    (hlast : ∀ c, l.getLast? = some c → p c = false) :
    List.dropWhile p l.reverse = l.reverse := by
  cases hrev : l.reverse with
  | nil => rfl
  | cons c r =>
    have hcl : l.getLast? = some c := by
      rw [← List.head?_reverse, hrev]; rfl
    rw [List.dropWhile_cons_of_neg (by simp [hlast c hcl])]

/-- Stripping a string that is whitespace, then a block beginning and
ending in non-whitespace, then whitespace, returns the middle block. -/
lemma pyStrip_sandwich (lead mid tail : List Char)
    (hlead : ∀ c ∈ lead, isPyWhitespace c = true)
    (htail : ∀ c ∈ tail, isPyWhitespace c = true)
    (hhead : ∀ c, mid.head? = some c → isPyWhitespace c = false)
    (hlast : ∀ c, mid.getLast? = some c → isPyWhitespace c = false)
    (hne : mid ≠ []) :
    pyStrip (lead ++ mid ++ tail) = mid := by
  unfold pyStrip
  rw [List.append_assoc, dropWhile_append_all _ _ _ hlead]
  have hmid : List.dropWhile isPyWhitespace (mid ++ tail) = mid ++ tail := by
    cases mid with
    | nil => exact absurd rfl hne
    | cons c r =>
      rw [List.cons_append,
        List.dropWhile_cons_of_neg (by simp [hhead c rfl])]
  rw [hmid, List.reverse_append,
    dropWhile_append_all _ _ _ (fun x hx => htail x (List.mem_reverse.mp hx)),
    dropWhile_reverse_eq_self _ _ hlast, List.reverse_reverse]

/-- When the identifier does not end in whitespace (or is empty), the
template's `.strip()` removes exactly the surrounding indentation and
the command handed to the shell is the interpolated body itself. -/
lemma buildCommand_eq_core (ofn st et vid : List Char)
    (hvid : ∀ c, vid.getLast? = some c → isPyWhitespace c = false) :
    buildCommand ofn st et vid = commandCore ofn st et vid := by
  unfold buildCommand rawCommand
  refine pyStrip_sandwich _ _ _ (by decide) (by decide) ?_ ?_ ?_
  · intro c hc
    rw [show (commandCore ofn st et vid).head? = some 'y' from rfl] at hc
    obtain rfl : c = 'y' := by simpa using hc.symm
    decide
  · intro c hc
    cases hv : vid with
    | nil =>
      rw [hv] at hc
      have hu : (commandCore ofn st et []).getLast? = some '=' := by
        unfold commandCore
        rw [List.append_nil,
          List.getLast?_append_of_ne_nil _ (by decide : urlBase ≠ [])]
        decide
      rw [hu] at hc
      obtain rfl : c = '=' := by simpa using hc.symm
      decide
    | cons d ds =>
      rw [hv] at hc
      have hu : (commandCore ofn st et (d :: ds)).getLast? =
          (d :: ds).getLast? := by
        unfold commandCore
        exact List.getLast?_append_of_ne_nil _ (by simp)
      rw [hu] at hc
      rw [hv] at hvid
      exact hvid c hc
  · intro hmid0
    have hh : (commandCore ofn st et vid).head? = some 'y' := rfl
    rw [hmid0] at hh
    exact Option.noConfusion hh

/-- Claim C1: the window adjustment computes exactly: if
`start_time > 15` then `(start_time - 15, end_time + 15)`, otherwise
`(start_time, end_time + 30)`. -/
theorem C1_window_adjustment (s e : Int) :
    (s > 15 → adjustWindow s e = (s - 15, e + 15)) ∧
    (s ≤ 15 → adjustWindow s e = (s, e + 30)) := by
  constructor
  · intro h
    unfold adjustWindow
    rw [if_pos h]
  · intro h
    unfold adjustWindow
    rw [if_neg (by omega)]

/-- Claim C1 witness: the spec's two scenarios, `(30, 40) ↦ (15, 55)`
and `(5, 12) ↦ (5, 42)`. -/
theorem C1_window_adjustment_witness :
    adjustWindow 30 40 = (15, 55) ∧ adjustWindow 5 12 = (5, 42) :=
  ⟨((C1_window_adjustment 30 40).1 (by decide)).trans (by decide),
   ((C1_window_adjustment 5 12).2 (by decide)).trans (by decide)⟩

/-- Claim C2: for `max_attempts ≥ 1`, if the tool fails on every
invocation, the Fetcher returns `success = false` with the captured
output of the last failed attempt, after exactly `max_attempts`
invocations (for any fuel covering the budget). -/
theorem C2_all_attempts_fail (errs : Nat → List Char) (fe : Bool) (n fuel : Nat)
    (hn : 1 ≤ n) (hfuel : n ≤ fuel) :
    download_clip (fun i => Outcome.fail (errs i)) fe n fuel =
      some ((false, errs (n - 1)), n) :=
  download_clip_exhaust errs fe n fuel hn hfuel

/-- Claim C2 witness: five failing attempts with budget 5 return
`(false, <last output>)` after exactly 5 invocations. -/
theorem C2_all_attempts_fail_witness :
    download_clip (fun _ => Outcome.fail ['e', 'r', 'r']) false 5 5 =
      some ((false, ['e', 'r', 'r']), 5) :=
  C2_all_attempts_fail (fun _ => ['e', 'r', 'r']) false 5 5 (by decide) (by decide)

/-- Claim C3: if the tool succeeds on attempt `k ≤ max_attempts` (after
`k - 1` failures) and the destination file exists afterwards, the
Fetcher returns `(true, 'Downloaded')` after exactly `k` invocations. -/
theorem C3_success_at_k (oracle : Nat → Outcome) (k n fuel : Nat)
    (hk : 1 ≤ k) (hkn : k ≤ n) (hfuel : k ≤ fuel)
    (hfail : ∀ i, i < k - 1 → oracle i ≠ Outcome.ok)
    (hok : oracle (k - 1) = Outcome.ok) :
    download_clip oracle true n fuel = some ((true, downloadedMsg), k) :=
  download_clip_break oracle true k n fuel hk hkn hfuel hfail hok

/-- Claim C3 witness: two failures then a success, budget 5, file
present: `(true, 'Downloaded')` after exactly 3 invocations. -/
theorem C3_success_at_k_witness :
    download_clip (fun i => if i < 2 then Outcome.fail ['e'] else Outcome.ok)
      true 5 5 = some ((true, downloadedMsg), 3) :=
  C3_success_at_k (fun i => if i < 2 then Outcome.fail ['e'] else Outcome.ok)
    3 5 5 (by decide) (by decide) (by decide) (by decide) (by decide)

/-- Claim C4: if the tool reports success on some attempt but the
destination file does not exist afterwards, the Fetcher returns
`success = false`. -/
theorem C4_success_but_missing_file (oracle : Nat → Outcome) (k n fuel : Nat)
    (hk : 1 ≤ k) (hkn : k ≤ n) (hfuel : k ≤ fuel)
    (hfail : ∀ i, i < k - 1 → oracle i ≠ Outcome.ok)
    (hok : oracle (k - 1) = Outcome.ok) :
    ∃ msg m, download_clip oracle false n fuel = some ((false, msg), m) :=
  ⟨downloadedMsg, k, download_clip_break oracle false k n fuel hk hkn hfuel hfail hok⟩

/-- Claim C4 witness: immediate success with the file missing returns
`success = false`. -/
theorem C4_success_but_missing_file_witness :
    ∃ msg m, download_clip (fun _ => Outcome.ok) false 3 4 =
      some ((false, msg), m) :=
  C4_success_but_missing_file (fun _ => Outcome.ok) 1 3 4
    (by decide) (by decide) (by decide) (by decide) rfl

/-- Claim C5 counterexample: the tool succeeds on the first attempt but
the destination file is missing; the code returns
`(False, 'Downloaded')` — the message is `'Downloaded'`, not the
captured output, so `'Downloaded'` does not accompany only the
file-exists success case. -/
theorem C5_counterexample :
    download_clip (fun _ => Outcome.ok) false 5 5 =
      some ((false, downloadedMsg), 1) := rfl

/-- Claim C5 as amended: after a successful invocation the Fetcher
returns `(true, 'Downloaded')` when the destination file exists and
`(false, 'Downloaded')` when it does not — the message `'Downloaded'`
accompanies both post-success outcomes, and the captured output is
returned only when the attempt budget is exhausted. -/
theorem C5_post_success_message (oracle : Nat → Outcome) (fe : Bool)
    (k n fuel : Nat) (hk : 1 ≤ k) (hkn : k ≤ n) (hfuel : k ≤ fuel)
    (hfail : ∀ i, i < k - 1 → oracle i ≠ Outcome.ok)
    (hok : oracle (k - 1) = Outcome.ok) :
    download_clip oracle fe n fuel = some ((fe, downloadedMsg), k) :=
  download_clip_break oracle fe k n fuel hk hkn hfuel hfail hok

/-- Claim C5 witness: immediate success with the file present returns
`(true, 'Downloaded')` after one invocation. -/
theorem C5_post_success_message_witness :
    download_clip (fun _ => Outcome.ok) true 5 5 =
      some ((true, downloadedMsg), 1) :=
  C5_post_success_message (fun _ => Outcome.ok) true 1 5 5
    (by decide) (by decide) (by decide) (by decide) rfl

/-- Claim C6 counterexample: with `num_attempts = 0` and an
always-failing tool, the loop never returns under any iteration bound:
it neither terminates nor keeps to the budget of 0 invocations, so the
claim fails for that value of `max_attempts`. -/
theorem C6_counterexample :
    ¬ ∃ fuel r k,
      download_clip (fun _ => Outcome.fail ['e']) false 0 fuel = some (r, k) := by
  rintro ⟨fuel, r, k, h⟩
  unfold download_clip at h
  rw [loopRun_zero_budget ['e'] fuel 0 0] at h
  exact Option.noConfusion h

/-- Claim C6 as amended: for every `max_attempts ≥ 1` and every outcome
sequence, the retry loop terminates within `max_attempts` invocations
(fuel `max_attempts` already suffices for the loop to return). -/
theorem C6_terminates_within_budget (oracle : Nat → Outcome) (fe : Bool)
    (n : Nat) (hn : 1 ≤ n) :
    ∃ r k, download_clip oracle fe n n = some (r, k) ∧ k ≤ n := by
  obtain ⟨r, k, hr, hk⟩ := loopRun_total oracle n n 0 0 (by omega) hn
  cases r with
  | exhausted out =>
    refine ⟨(false, out), k, ?_, by omega⟩
    unfold download_clip
    rw [hr]
  | broke =>
    refine ⟨(fe, downloadedMsg), k, ?_, by omega⟩
    unfold download_clip
    rw [hr]

/-- Claim C6 witness: budget 5 with an always-succeeding tool returns
within 5 invocations. -/
theorem C6_terminates_within_budget_witness :
    ∃ r k, download_clip (fun _ => Outcome.ok) true 5 5 = some (r, k) ∧
      k ≤ 5 :=
  C6_terminates_within_budget (fun _ => Outcome.ok) true 5 (by decide)

set_option maxRecDepth 8000 in
/-- Claim C7 counterexample: for the identifier `'a '` (which ends in a
space), the `.strip()` applied to the command template removes the
identifier's trailing space, so the command handed to the shell does
not contain the identifier verbatim after the URL base. -/
theorem C7_counterexample :
    ¬ (urlBase ++ ['a', ' '] <:+:
        buildCommand "f.wav".data "1".data "2".data ['a', ' ']) := by decide

/-- Claim C7 as amended: for every identifier that does not end in a
whitespace character (in particular every empty or whitespace-free
identifier), the command handed to the shell contains the identifier
verbatim and unsanitized, concatenated immediately after the URL base
— indeed the command ends with `url_base ++ identifier`. -/
theorem C7_identifier_in_command (ofn st et vid : List Char)
    (hvid : ∀ c, vid.getLast? = some c → isPyWhitespace c = false) :
    urlBase ++ vid <:+ buildCommand ofn st et vid := by
  have h : commandCore ofn st et vid =
      ("yt-dlp --quiet --no-warnings -x --audio-format wav -f bestaudio -o \"".data ++
        ofn ++ "\" --download-sections \"*".data ++ st ++ "-".data ++ et ++
        "\" ".data) ++ (urlBase ++ vid) := by
    unfold commandCore
    simp [List.append_assoc]
  rw [buildCommand_eq_core ofn st et vid hvid, h]
  exact List.suffix_append _ _

/-- Claim C7 witness: the identifier `abc123` appears verbatim right
after the URL base at the end of the constructed command. -/
theorem C7_identifier_in_command_witness :
    urlBase ++ "abc123".data <:+
      buildCommand "f.wav".data "15".data "55".data "abc123".data :=
  C7_identifier_in_command "f.wav".data "15".data "55".data "abc123".data
    (by
      intro c hc
      rw [show ("abc123".data).getLast? = some '3' from rfl] at hc
      obtain rfl : c = '3' := by simpa using hc.symm
      decide)

/-- Claim C8: a row whose destination file already exists is processed
without invoking the Fetcher, and every row gets its audio path and a
boolean download status recorded (`true` when skipped, otherwise the
Fetcher's success flag). -/
theorem C8_driver_skip_and_record (path : List Char) (eb : Bool)
    (fetch : Bool × List Char) :
    (process path true fetch).2 = false ∧
    (process path eb fetch).1.audio = path ∧
    (process path eb fetch).1.download_status = (if eb then true else fetch.1) := by
  refine ⟨rfl, ?_, ?_⟩ <;> cases eb <;> rfl

/-- Claim C10: a row whose destination file already exists before
processing is recorded with `download_status = true`, although the
Fetcher was never invoked. -/
theorem C10_existing_marked_true (path : List Char) (fetch : Bool × List Char) :
    (process path true fetch).1.download_status = true ∧
    (process path true fetch).2 = false :=
  ⟨rfl, rfl⟩

/-- Claim C9: both branches of the window adjustment widen the window
by exactly 30 seconds, and a nonnegative start time stays
nonnegative. -/
theorem C9_window_width (s e : Int) :
    (adjustWindow s e).2 - (adjustWindow s e).1 = (e - s) + 30 ∧
    (0 ≤ s → 0 ≤ (adjustWindow s e).1) := by
  unfold adjustWindow
  by_cases h : s > 15
  · rw [if_pos h]
    refine ⟨?_, fun _ => ?_⟩
    · show (e + 15) - (s - 15) = (e - s) + 30
      ring
    · show (0 : Int) ≤ s - 15
      omega
  · rw [if_neg h]
    refine ⟨?_, fun hs => ?_⟩
    · show (e + 30) - s = (e - s) + 30
      ring
    · exact hs

/-- Claim C9 witness: at `(3, 10)` the adjusted window is 30 seconds
wider and keeps a nonnegative start. -/
theorem C9_window_width_witness :
    (adjustWindow 3 10).2 - (adjustWindow 3 10).1 = ((10 : Int) - 3) + 30 ∧
    0 ≤ (adjustWindow 3 10).1 :=
  ⟨(C9_window_width 3 10).1, (C9_window_width 3 10).2 (by decide)⟩

end MusicCaps
